import Mathlib

/-
Verification of the Zobo ESP32 robot controller core
(src/zobo_esp32/main/main.c, with the modular twins in motor.c and
ble_service.c).

The state of the firmware is the collection of module-level statics of
main.c plus the last values written to the motor PWM/direction hardware.
Every operation below is a direct shallow embedding of the corresponding
C function; uint8/uint16/uint32 arithmetic is modelled on Nat (or Int for
expressions that can go negative in C) with explicit mod 2^w at the points
where the C performs an integral conversion.
-/

namespace Zobo

/-- The constant RAMP_START_PWM from main.c / motor.c. -/
def RAMP_START_PWM : Nat := 100

/-- The constant RAMP_END_PWM from main.c / motor.c. -/
def RAMP_END_PWM : Nat := 255

/-- The constant RAMP_DURATION_MS from main.c / motor.c. -/
def RAMP_DURATION_MS : Nat := 2000

/-- The constant LOOP_DELAY_MS from main.c / motor.c. -/
def LOOP_DELAY_MS : Nat := 10

/-- The constant INACTIVITY_MS from main.c / motor.c. -/
def INACTIVITY_MS : Nat := 300

/-- The countdown INACTIVITY_TICKS = INACTIVITY_MS / LOOP_DELAY_MS (= 30). -/
def INACTIVITY_TICKS : Nat := INACTIVITY_MS / LOOP_DELAY_MS

/-- Reduction of a Nat to the range of a C uint32_t. -/
def u32 (n : Nat) : Nat := n % 4294967296

/-- Wrapping uint32_t subtraction a - b, as in the C expression
now - ramp_start_ms. -/
def u32_sub (a b : Nat) : Nat := (u32 a + 4294967296 - u32 b) % 4294967296

/-- Conversion of a C int expression to a uint8_t value (mod 256). -/
def u8ofInt (x : Int) : Nat := (x % 256).toNat

/-- The firmware state: the statics of main.c
(device_connected, tx_notify_enabled, gatts_if_global registration,
ramp_forward_active, forward_latched, ramp_start_ms, inactivity_timer,
timer_active) together with the last duty and direction values written
to the motor hardware by motor_set_pwm / motor_set_direction. -/
structure ZoboState where
  left_duty : Nat
  right_duty : Nat
  left_dir : Bool
  right_dir : Bool
  device_connected : Bool
  tx_notify_enabled : Bool
  gatts_registered : Bool
  ramp_forward_active : Bool
  forward_latched : Bool
  ramp_start_ms : Nat
  inactivity_timer : Int
  timer_active : Bool
deriving Repr, DecidableEq

/-- The state at system start: all statics zero/false (main.c file scope). -/
def init_state : ZoboState :=
  { left_duty := 0, right_duty := 0, left_dir := false, right_dir := false
    device_connected := false, tx_notify_enabled := false
    gatts_registered := false
    ramp_forward_active := false, forward_latched := false
    ramp_start_ms := 0, inactivity_timer := 0, timer_active := false }

/-- motor_set_pwm(left, right): writes both duty registers.  The uint8_t
parameters truncate the arguments mod 256. -/
def motor_set_pwm (left right : Nat) (s : ZoboState) : ZoboState :=
  { s with left_duty := left % 256, right_duty := right % 256 }

/-- motor_set_direction(left_high, right_high): writes both direction pins. -/
def motor_set_direction (left_high right_high : Bool) (s : ZoboState) : ZoboState :=
  { s with left_dir := left_high, right_dir := right_high }

/-- motor_stop(): pwm 0/0, direction low/low, ramp and latch flags cleared. -/
def motor_stop (s : ZoboState) : ZoboState :=
  let s1 := motor_set_pwm 0 0 s
  let s2 := motor_set_direction false false s1
  { s2 with ramp_forward_active := false, forward_latched := false }

/-- process_command(data, len) from main.c.  Here now stands for the value
of xTaskGetTickCount() * portTICK_PERIOD_MS (a uint32_t), read in the
0x01 case.  A frame of length 0 returns immediately; a missing second
byte reads as parameter 0. -/
def process_command (now : Nat) (data : List Nat) (s : ZoboState) : ZoboState :=
  match data with
  | [] => s
  | cmd :: rest =>
    let param := rest.headD 0
    if cmd = 0x00 then
      -- Backward
      let s1 := { s with forward_latched := false, ramp_forward_active := false,
                         timer_active := true,
                         inactivity_timer := (INACTIVITY_TICKS : Int) }
      let s2 := motor_set_pwm 100 100 s1
      motor_set_direction true true s2
    else if cmd = 0x01 then
      -- Forward with ramp
      let s1 := { s with timer_active := true,
                         inactivity_timer := (INACTIVITY_TICKS : Int) }
      let s2 := motor_set_direction false false s1
      if !s2.ramp_forward_active && !s2.forward_latched then
        let s3 := { s2 with ramp_start_ms := u32 now, ramp_forward_active := true }
        motor_set_pwm RAMP_START_PWM RAMP_START_PWM s3
      else s2
    else if cmd = 0x02 then
      -- Stop (the LED_MAIN blink touches only an LED pin, not modelled)
      let s1 := { s with forward_latched := false, ramp_forward_active := false }
      motor_stop s1
    else if cmd = 0x03 then
      -- Right
      let s1 := { s with forward_latched := false, ramp_forward_active := false,
                         timer_active := true,
                         inactivity_timer := (INACTIVITY_TICKS : Int) }
      let s2 := motor_set_pwm 150 (255 - 150) s1
      motor_set_direction true false s2
    else if cmd = 0x04 then
      -- Left
      let s1 := { s with forward_latched := false, ramp_forward_active := false,
                         timer_active := true,
                         inactivity_timer := (INACTIVITY_TICKS : Int) }
      let s2 := motor_set_pwm (255 - 150) 150 s1
      motor_set_direction false true s2
    else if cmd = 0x05 then
      -- Manual PWM control; the two pwm arguments are ints converted to uint8_t
      let s1 := { s with forward_latched := false, ramp_forward_active := false,
                         timer_active := true,
                         inactivity_timer := (INACTIVITY_TICKS : Int) }
      let s2 :=
        if param ≥ 50 then
          motor_set_pwm (u8ofInt (180 - ((param : Int) - 50)))
                        (u8ofInt (180 + ((param : Int) - 50))) s1
        else
          motor_set_pwm (u8ofInt (180 + (50 - (param : Int))))
                        (u8ofInt (180 - (50 - (param : Int)))) s1
      motor_set_direction false false s2
    else if cmd = 10 then s    -- Green LED: led_set_rgb only, no modelled state
    else if cmd = 20 then s    -- Red LED
    else if cmd = 30 then s    -- Blue LED
    else if cmd = 40 then s    -- All LEDs
    else s                     -- default: ESP_LOGW only, no state change

/-- The forward-ramp half of the control loop body (main.c control_loop_task,
identical to motor_update_ramp in motor.c).  Here now is the current
millisecond count as a uint32_t. -/
def motor_update_ramp (now : Nat) (s : ZoboState) : ZoboState :=
  if s.ramp_forward_active then
    let elapsed := u32_sub now s.ramp_start_ms
    if elapsed ≥ RAMP_DURATION_MS then
      let s1 := motor_set_pwm RAMP_END_PWM RAMP_END_PWM s
      { s1 with ramp_forward_active := false, forward_latched := true }
    else
      let pwm_now := (RAMP_START_PWM +
        (RAMP_END_PWM - RAMP_START_PWM) * elapsed / RAMP_DURATION_MS) % 65536
      motor_set_pwm pwm_now pwm_now s
  else s

/-- The inactivity half of the control loop body (main.c control_loop_task,
identical to motor_check_inactivity in motor.c). -/
def motor_check_inactivity (s : ZoboState) : ZoboState :=
  if s.inactivity_timer > 0 then
    { s with inactivity_timer := s.inactivity_timer - 1 }
  else if s.timer_active then
    let s1 := { s with timer_active := false,
                       ramp_forward_active := false, forward_latched := false }
    let s2 := motor_set_pwm 0 0 s1
    motor_set_direction false false s2
  else s

/-- One full iteration of control_loop_task: ramp update, then
inactivity check. -/
def control_tick (now : Nat) (s : ZoboState) : ZoboState :=
  motor_check_inactivity (motor_update_ramp now s)

/-- Iteration of the inactivity check, k times. -/
def check_iter : Nat → ZoboState → ZoboState
  | 0, s => s
  | k + 1, s => motor_check_inactivity (check_iter k s)

/-- The guard of the expiry branch of motor_check_inactivity: true exactly
when this tick performs the expiry action. -/
def expiry_fires (s : ZoboState) : Prop :=
  ¬ s.inactivity_timer > 0 ∧ s.timer_active = true

/-- motor_reset_inactivity() (inlined at the top of every motion case of
process_command in main.c): arm the timer at the full countdown. -/
def motor_reset_inactivity (s : ZoboState) : ZoboState :=
  { s with timer_active := true, inactivity_timer := (INACTIVITY_TICKS : Int) }

/-- ESP_GATTS_CONNECT_EVT handler (main.c). -/
def on_connect (s : ZoboState) : ZoboState :=
  { s with device_connected := true }

/-- ESP_GATTS_DISCONNECT_EVT handler (main.c): clear connection and notify
flags, then motor_stop(); the advertising restart has no modelled state. -/
def on_disconnect (s : ZoboState) : ZoboState :=
  motor_stop { s with device_connected := false, tx_notify_enabled := false }

/-- ble_send_data(str): the list of frames actually put on the air — the
frame is sent only while connected with notifications enabled and the
GATT interface registered; otherwise it is silently discarded. -/
def ble_send_data (str : String) (s : ZoboState) : List String :=
  if s.device_connected ∧ s.tx_notify_enabled ∧ s.gatts_registered
  then [str] else []

/-- ESP_GATTS_WRITE_EVT on the RX characteristic (main.c): run
process_command, then attempt to send the fixed string 6.25. -/
def on_rx_write (now : Nat) (data : List Nat) (s : ZoboState) :
    ZoboState × List String :=
  let s1 := process_command now data s
  (s1, ble_send_data "6.25" s1)

/-- ESP_GATTS_WRITE_EVT on the TX CCCD (main.c): only a 2-byte value is
examined; tx_notify_enabled becomes the test (value0 | value1 << 8) ==
0x0001. -/
def on_cccd_write (value : List Nat) (s : ZoboState) : ZoboState :=
  match value with
  | [v0, v1] =>
    let cccd := (v0 ||| (v1 <<< 8)) % 65536
    { s with tx_notify_enabled := decide (cccd = 0x0001) }
  | _ => s

/-- A connected peer with notifications subscribed and the GATT interface
registered. -/
def conn_notify_state : ZoboState :=
  { init_state with device_connected := true, tx_notify_enabled := true,
                    gatts_registered := true }

/-- A connected peer that has not subscribed to notifications. -/
def conn_nonotify_state : ZoboState :=
  { init_state with device_connected := true, gatts_registered := true }

/-- A connected, subscribed peer in the middle of a forward ramp with the
watchdog armed. -/
def mid_ramp_state : ZoboState :=
  { conn_notify_state with ramp_forward_active := true, ramp_start_ms := 1000,
                           left_duty := 138, right_duty := 138,
                           timer_active := true, inactivity_timer := 15 }

/-- A state with a ramp in progress started at 1000 ms. -/
def ramp_demo_state : ZoboState :=
  { init_state with ramp_forward_active := true, ramp_start_ms := 1000 }

/-- Any int converted to uint8_t lands in 0..255. -/
lemma u8ofInt_lt (x : Int) : u8ofInt x < 256 := by
  unfold u8ofInt; omega

/-- When the start stamp is a uint32 value and the true elapsed time fits
in 32 bits, the wrapping uint32 subtraction gives the true elapsed time. -/
lemma u32_sub_exact {T now : Nat} (hT : T < 4294967296) (hle : T ≤ now)
    (hspan : now - T < 4294967296) : u32_sub now T = now - T := by
  unfold u32_sub u32; omega

/-- A byte pair assembled as v0 | (v1 << 8) equals 0x0001 exactly when
v0 = 1 and v1 = 0. -/
lemma byte_pair_eq_one {v0 v1 : Nat} (h0 : v0 < 256) (h1 : v1 < 256) :
    ((v0 ||| (v1 <<< 8)) % 65536 = 1) ↔ (v0 = 1 ∧ v1 = 0) := by
  have hlt : v0 ||| (v1 <<< 8) < 65536 := by
    have h := Nat.append_lt (show v0 < 2 ^ 8 by omega) (show v1 < 2 ^ 8 by omega)
    rw [Nat.lor_comm] at h
    simpa using h
  rw [Nat.mod_eq_of_lt hlt]
  constructor
  · intro h
    have hv1 : v1 = 0 := by
      apply Nat.eq_of_testBit_eq
      intro j
      simp only [Nat.zero_testBit]
      have hb : (v0 ||| v1 <<< 8).testBit (j + 8) = Nat.testBit 1 (j + 8) := by
        rw [h]
      have h1bit : Nat.testBit 1 (j + 8) = false := by
        rw [← Bool.not_eq_true, Nat.testBit_one_eq_true_iff_self_eq_zero]
        omega
      rw [h1bit, Nat.testBit_lor, Nat.testBit_shiftLeft] at hb
      simp at hb
      exact hb.2
    subst hv1
    simp at h
    exact ⟨h, rfl⟩
  · rintro ⟨rfl, rfl⟩
    decide

/-- While the counter is still positive, each inactivity check only
decrements it: after k ≤ n ticks from a state with counter n, the state
is unchanged except that the counter reads n − k. -/
lemma check_iter_countdown (s : ZoboState) (n : Nat)
    (hn : s.inactivity_timer = (n : Int)) :
    ∀ k, k ≤ n →
      check_iter k s = { s with inactivity_timer := ((n - k : Nat) : Int) } := by
  intro k
  induction k with
  | zero =>
    intro _
    rw [Nat.sub_zero, ← hn]
    rfl
  | succ k ih =>
    intro hk
    have hk2 : k ≤ n := by omega
    rw [check_iter, ih hk2]
    unfold motor_check_inactivity
    have hpos : ((n - k : Nat) : Int) > 0 := by omega
    rw [if_pos hpos]
    rw [show ((n - k : Nat) : Int) - 1 = ((n - (k + 1) : Nat) : Int) from by omega]

/-- Claim C1 (amended): a disconnect event, from any state, forces
notifications off, both duties to 0, both directions neutral and the
ramp/latch flags cleared, but leaves the watchdog arming flag and its
counter untouched. -/
theorem disconnect_forces_neutral (s : ZoboState) :
    (on_disconnect s).device_connected = false ∧
    (on_disconnect s).tx_notify_enabled = false ∧
    (on_disconnect s).left_duty = 0 ∧
    (on_disconnect s).right_duty = 0 ∧
    (on_disconnect s).left_dir = false ∧
    (on_disconnect s).right_dir = false ∧
    (on_disconnect s).ramp_forward_active = false ∧
    (on_disconnect s).forward_latched = false ∧
    (on_disconnect s).timer_active = s.timer_active ∧
    (on_disconnect s).inactivity_timer = s.inactivity_timer := by
  refine ⟨rfl, rfl, rfl, rfl, rfl, rfl, rfl, rfl, rfl, rfl⟩

/-- Claim C1 counterexample: a disconnect during an active ramp with the
watchdog armed leaves the watchdog armed (timer_active still true,
counter untouched), contradicting the claimed watchdog disarm. -/
theorem disconnect_keeps_watchdog_cex :
    mid_ramp_state.device_connected = true ∧
    mid_ramp_state.timer_active = true ∧
    (on_disconnect mid_ramp_state).timer_active = true ∧
    (on_disconnect mid_ramp_state).inactivity_timer = 15 := by decide

/-- Claim C2: from any state, after a watchdog reset (countdown 30), the
first 30 inactivity checks perform no expiry action; the 31st does
(motors stopped, ramp and latch cleared, watchdog disarmed); and every
later check leaves the state fixed and never fires again. -/
theorem watchdog_expiry_edge (s : ZoboState) :
    (∀ k, k < 30 → ¬ expiry_fires (check_iter k (motor_reset_inactivity s))) ∧
    expiry_fires (check_iter 30 (motor_reset_inactivity s)) ∧
    ((check_iter 31 (motor_reset_inactivity s)).left_duty = 0 ∧
     (check_iter 31 (motor_reset_inactivity s)).right_duty = 0 ∧
     (check_iter 31 (motor_reset_inactivity s)).left_dir = false ∧
     (check_iter 31 (motor_reset_inactivity s)).right_dir = false ∧
     (check_iter 31 (motor_reset_inactivity s)).ramp_forward_active = false ∧
     (check_iter 31 (motor_reset_inactivity s)).forward_latched = false ∧
     (check_iter 31 (motor_reset_inactivity s)).timer_active = false) ∧
    (∀ j, check_iter (31 + j) (motor_reset_inactivity s) =
      check_iter 31 (motor_reset_inactivity s)) ∧
    (∀ j, ¬ expiry_fires (check_iter (31 + j) (motor_reset_inactivity s))) := by
  have hcnt := check_iter_countdown (motor_reset_inactivity s) 30 (by
    simp [motor_reset_inactivity, INACTIVITY_TICKS, INACTIVITY_MS, LOOP_DELAY_MS])
  have h30 : check_iter 30 (motor_reset_inactivity s) =
      { motor_reset_inactivity s with inactivity_timer := ((0 : Nat) : Int) } := by
    simpa using hcnt 30 (by omega)
  have h31eq : check_iter 31 (motor_reset_inactivity s) =
      motor_check_inactivity
        { motor_reset_inactivity s with inactivity_timer := ((0 : Nat) : Int) } := by
    rw [check_iter, h30]
  have hstop : (check_iter 31 (motor_reset_inactivity s)).left_duty = 0 ∧
      (check_iter 31 (motor_reset_inactivity s)).right_duty = 0 ∧
      (check_iter 31 (motor_reset_inactivity s)).left_dir = false ∧
      (check_iter 31 (motor_reset_inactivity s)).right_dir = false ∧
      (check_iter 31 (motor_reset_inactivity s)).ramp_forward_active = false ∧
      (check_iter 31 (motor_reset_inactivity s)).forward_latched = false ∧
      (check_iter 31 (motor_reset_inactivity s)).timer_active = false ∧
      (check_iter 31 (motor_reset_inactivity s)).inactivity_timer = 0 := by
    rw [h31eq]
    simp [motor_check_inactivity, motor_set_pwm, motor_set_direction,
          motor_reset_inactivity]
  have hfix : motor_check_inactivity (check_iter 31 (motor_reset_inactivity s)) =
      check_iter 31 (motor_reset_inactivity s) := by
    unfold motor_check_inactivity
    rw [if_neg (by rw [hstop.2.2.2.2.2.2.2]; omega),
        if_neg (by rw [hstop.2.2.2.2.2.2.1]; exact Bool.false_ne_true)]
  have hfixiter : ∀ j, check_iter (31 + j) (motor_reset_inactivity s) =
      check_iter 31 (motor_reset_inactivity s) := by
    intro j
    induction j with
    | zero => rfl
    | succ j ih =>
      rw [show 31 + (j + 1) = (31 + j) + 1 from by omega, check_iter, ih, hfix]
  refine ⟨?_, ?_, ?_, hfixiter, ?_⟩
  · intro k hk hfire
    rw [hcnt k (by omega)] at hfire
    unfold expiry_fires at hfire
    simp at hfire
    omega
  · rw [h30]
    unfold expiry_fires
    constructor
    · simp
    · simp [motor_reset_inactivity]
  · exact ⟨hstop.1, hstop.2.1, hstop.2.2.1, hstop.2.2.2.1, hstop.2.2.2.2.1,
           hstop.2.2.2.2.2.1, hstop.2.2.2.2.2.2.1⟩
  · intro j hfire
    rw [hfixiter j] at hfire
    unfold expiry_fires at hfire
    rw [hstop.2.2.2.2.2.2.1] at hfire
    exact Bool.false_ne_true hfire.2

/-- Claim C3 (amended): only the five motion opcodes 0x00 0x01 0x03 0x04
0x05 reset the watchdog to its full countdown; the stop opcode 0x02, the
indicator opcodes 10 20 30 40 and unrecognized opcodes leave both
watchdog fields untouched. -/
theorem watchdog_reset_partition (s : ZoboState) (now : Nat) (param : Nat) :
    ((process_command now [0x00, param] s).timer_active = true ∧
     (process_command now [0x00, param] s).inactivity_timer = 30) ∧
    ((process_command now [0x01, param] s).timer_active = true ∧
     (process_command now [0x01, param] s).inactivity_timer = 30) ∧
    ((process_command now [0x03, param] s).timer_active = true ∧
     (process_command now [0x03, param] s).inactivity_timer = 30) ∧
    ((process_command now [0x04, param] s).timer_active = true ∧
     (process_command now [0x04, param] s).inactivity_timer = 30) ∧
    ((process_command now [0x05, param] s).timer_active = true ∧
     (process_command now [0x05, param] s).inactivity_timer = 30) ∧
    ((process_command now [0x02, param] s).timer_active = s.timer_active ∧
     (process_command now [0x02, param] s).inactivity_timer = s.inactivity_timer) ∧
    ((process_command now [10, param] s).timer_active = s.timer_active ∧
     (process_command now [10, param] s).inactivity_timer = s.inactivity_timer) ∧
    ((process_command now [20, param] s).timer_active = s.timer_active ∧
     (process_command now [20, param] s).inactivity_timer = s.inactivity_timer) ∧
    ((process_command now [30, param] s).timer_active = s.timer_active ∧
     (process_command now [30, param] s).inactivity_timer = s.inactivity_timer) ∧
    ((process_command now [40, param] s).timer_active = s.timer_active ∧
     (process_command now [40, param] s).inactivity_timer = s.inactivity_timer) := by
  obtain ⟨ld, rd, ldir, rdir, dc, tn, gr, ra, fl, rs, it, ta⟩ := s
  refine ⟨⟨rfl, rfl⟩, ⟨?_, ?_⟩, ⟨rfl, rfl⟩, ⟨rfl, rfl⟩, ⟨?_, ?_⟩,
          ⟨rfl, rfl⟩, ⟨rfl, rfl⟩, ⟨rfl, rfl⟩, ⟨rfl, rfl⟩, ⟨rfl, rfl⟩⟩ <;>
    simp [process_command, motor_set_pwm, motor_set_direction, apply_ite,
          INACTIVITY_TICKS, INACTIVITY_MS, LOOP_DELAY_MS]

/-- Claim C3 counterexample: with the watchdog disarmed at 0, the accepted
stop frame 0x02 and the accepted indicator frame 10 leave the watchdog
disarmed at 0 instead of resetting it to the full countdown of 30. -/
theorem stop_indicator_no_reset_cex :
    (process_command 0 [0x02] init_state).timer_active = false ∧
    (process_command 0 [0x02] init_state).inactivity_timer = 0 ∧
    (process_command 0 [10] init_state).timer_active = false ∧
    (process_command 0 [10] init_state).inactivity_timer = 0 := by decide

/-- Claim C4 (amended): opcode 0x70 is not handled by process_command; it
falls through to the default case and changes no state at all (in
particular the watchdog is NOT reset), and the RX write handler still
sends the fixed string 6.25 whenever connected with notifications on. -/
theorem keepalive_is_unknown (s : ZoboState) (now : Nat) :
    (on_rx_write now [0x70] s).1 = s ∧
    (on_rx_write now [0x70] s).2 =
      (if s.device_connected ∧ s.tx_notify_enabled ∧ s.gatts_registered
       then ["6.25"] else []) := by
  exact ⟨rfl, rfl⟩

/-- Claim C4 counterexample: with a connected, subscribed peer and the
watchdog disarmed, frame 0x70 leaves the watchdog disarmed at 0 (no
reset to the full countdown) and an outbound string is produced. -/
theorem keepalive_cex :
    (on_rx_write 0 [0x70] conn_notify_state).1.timer_active = false ∧
    (on_rx_write 0 [0x70] conn_notify_state).1.inactivity_timer = 0 ∧
    (on_rx_write 0 [0x70] conn_notify_state).2 = ["6.25"] := by decide

/-- Claim C5: for a tick during an active ramp, elapsed < 2000 sets both
duties to 100 + 155·elapsed/2000 (truncating) and stays Ramping with the
stamp unchanged; elapsed ≥ 2000 sets both duties to 255, clears the ramp
flag and sets the latch; and a tick while not Ramping (Idle or Latched)
changes nothing. -/
theorem ramp_tick_spec (s : ZoboState) (now : Nat)
    (hact : s.ramp_forward_active = true)
    (hT : s.ramp_start_ms < 4294967296)
    (hle : s.ramp_start_ms ≤ now)
    (hspan : now - s.ramp_start_ms < 4294967296) :
    (now - s.ramp_start_ms < 2000 →
      (motor_update_ramp now s).left_duty =
        100 + 155 * (now - s.ramp_start_ms) / 2000 ∧
      (motor_update_ramp now s).right_duty =
        100 + 155 * (now - s.ramp_start_ms) / 2000 ∧
      (motor_update_ramp now s).ramp_forward_active = true ∧
      (motor_update_ramp now s).forward_latched = s.forward_latched ∧
      (motor_update_ramp now s).ramp_start_ms = s.ramp_start_ms) ∧
    (2000 ≤ now - s.ramp_start_ms →
      (motor_update_ramp now s).left_duty = 255 ∧
      (motor_update_ramp now s).right_duty = 255 ∧
      (motor_update_ramp now s).ramp_forward_active = false ∧
      (motor_update_ramp now s).forward_latched = true) ∧
    (∀ (m : Nat) (t : ZoboState), t.ramp_forward_active = false →
      motor_update_ramp m t = t) := by
  have he : u32_sub now s.ramp_start_ms = now - s.ramp_start_ms :=
    u32_sub_exact hT hle hspan
  refine ⟨?_, ?_, ?_⟩
  · intro hlt
    have hc : ¬ 2000 ≤ now - s.ramp_start_ms := by omega
    simp [motor_update_ramp, hact, hc, he, motor_set_pwm,
          RAMP_START_PWM, RAMP_END_PWM, RAMP_DURATION_MS]
    omega
  · intro hge2
    have hc : 2000 ≤ u32_sub now s.ramp_start_ms := by rw [he]; exact hge2
    simp [motor_update_ramp, hact, hc, motor_set_pwm,
          RAMP_START_PWM, RAMP_END_PWM, RAMP_DURATION_MS]
  · intro m t ht
    simp [motor_update_ramp, ht]

/-- Claim C5 witness: a tick 500 ms into a ramp started at 1000 ms yields
duty 100 + 155·500/2000 = 138 on the left side. -/
theorem ramp_tick_spec_witness :
    (motor_update_ramp 1500 ramp_demo_state).left_duty =
      100 + 155 * (1500 - ramp_demo_state.ramp_start_ms) / 2000 :=
  ((ramp_tick_spec ramp_demo_state 1500 rfl (by decide) (by decide)
    (by decide)).1 (by decide)).1

/-- Claim C6 (amended): the two duty values of a manual-duty frame are the
mod-256 truncations of the C int expressions; for p ≥ 50 the plain
formulas hold only while they stay in 0..255 (p ≤ 125 for the right
side), for p < 50 they always hold; both direction flags are low; and
both stored duties are in range because of the uint8_t truncation, not
because of the parameter range. -/
theorem manual_duty_spec (s : ZoboState) (now : Nat) (p : Nat) (hp : p < 256) :
    (process_command now [0x05, p] s).left_dir = false ∧
    (process_command now [0x05, p] s).right_dir = false ∧
    (process_command now [0x05, p] s).left_duty ≤ 255 ∧
    (process_command now [0x05, p] s).right_duty ≤ 255 ∧
    (50 ≤ p →
      (process_command now [0x05, p] s).left_duty =
        ((180 - ((p : Int) - 50)) % 256).toNat ∧
      (process_command now [0x05, p] s).right_duty =
        ((180 + ((p : Int) - 50)) % 256).toNat) ∧
    (p < 50 →
      (process_command now [0x05, p] s).left_duty = 180 + (50 - p) ∧
      (process_command now [0x05, p] s).right_duty = 180 - (50 - p)) ∧
    (50 ≤ p → p ≤ 125 →
      (process_command now [0x05, p] s).left_duty = 180 - (p - 50) ∧
      (process_command now [0x05, p] s).right_duty = 180 + (p - 50)) := by
  by_cases h : p ≥ 50 <;>
    simp [process_command, motor_set_pwm, motor_set_direction, u8ofInt, h] <;>
    omega

/-- Claim C6 counterexample: at parameter 200 the claimed formula gives
right duty 180 + (200 − 50) = 330, but the stored uint8_t duty is
330 mod 256 = 74, so the claimed value is not taken. -/
theorem manual_duty_wrap_cex :
    (process_command 0 [0x05, 200] init_state).right_duty = 74 ∧
    (74 : Nat) ≠ 180 + (200 - 50) := by decide

/-- Claim C6 witness: instantiation at parameter 80 (spec scenario):
left 150, right 210. -/
theorem manual_duty_spec_witness :
    (process_command 0 [0x05, 80] init_state).left_duty =
      ((180 - ((80 : Int) - 50)) % 256).toNat ∧
    (process_command 0 [0x05, 80] init_state).right_duty =
      ((180 + ((80 : Int) - 50)) % 256).toNat :=
  (manual_duty_spec init_state 0 80 (by decide)).2.2.2.2.1 (by decide)

/-- Claim C7 (amended): a frame with an opcode outside the recognized set
leaves the whole state unchanged and produces no error-specific reply;
the only outbound data is the fixed string 6.25 that the RX write handler
attempts after every write, delivered only while connected with
notifications enabled. -/
theorem unknown_opcode_no_effect (s : ZoboState) (now : Nat) (cmd : Nat)
    (rest : List Nat)
    (h0 : cmd ≠ 0x00) (h1 : cmd ≠ 0x01) (h2 : cmd ≠ 0x02) (h3 : cmd ≠ 0x03)
    (h4 : cmd ≠ 0x04) (h5 : cmd ≠ 0x05) (h6 : cmd ≠ 10) (h7 : cmd ≠ 20)
    (h8 : cmd ≠ 30) (h9 : cmd ≠ 40) :
    (on_rx_write now (cmd :: rest) s).1 = s ∧
    (on_rx_write now (cmd :: rest) s).2 =
      (if s.device_connected ∧ s.tx_notify_enabled ∧ s.gatts_registered
       then ["6.25"] else []) := by
  have hs : process_command now (cmd :: rest) s = s := by
    simp [process_command, h0, h1, h2, h3, h4, h5, h6, h7, h8, h9]
  exact ⟨hs, by simp [on_rx_write, hs, ble_send_data]⟩

/-- Claim C7 witness: instantiation at the unknown opcode 0x99. -/
theorem unknown_opcode_no_effect_witness :
    (on_rx_write 0 [0x99] init_state).1 = init_state ∧
    (on_rx_write 0 [0x99] init_state).2 =
      (if init_state.device_connected ∧ init_state.tx_notify_enabled ∧
          init_state.gatts_registered then ["6.25"] else []) :=
  unknown_opcode_no_effect init_state 0 0x99 []
    (by decide) (by decide) (by decide) (by decide) (by decide)
    (by decide) (by decide) (by decide) (by decide) (by decide)

/-- Claim C7 counterexample: a connected but unsubscribed peer sending the
unknown opcode 0x99 receives nothing at all — the frame is silently
dropped with no error status string, contradicting the claim. -/
theorem unknown_opcode_silent_cex :
    conn_nonotify_state.device_connected = true ∧
    (on_rx_write 0 [0x99] conn_nonotify_state).2 = [] := by decide

/-- Claim C8: issuing the forward-ramp command a second time, at any later
time, is a no-op: the full state after two 0x01 frames equals the state
after one. -/
theorem start_ramp_idempotent (s : ZoboState) (n1 n2 : Nat) :
    process_command n2 [0x01] (process_command n1 [0x01] s) =
      process_command n1 [0x01] s := by
  obtain ⟨ld, rd, ldir, rdir, dc, tn, gr, ra, fl, rs, it, ta⟩ := s
  cases ra <;> cases fl <;>
    simp [process_command, motor_set_pwm, motor_set_direction]

/-- Claim C9 (amended): a 2-byte CCCD write sets notifications_enabled to
true exactly for the enable value 0x0001 and to false for every other
2-byte value; a write of any other length is ignored and leaves the flag
as it was. -/
theorem cccd_write_spec (s : ZoboState) (v0 v1 : Nat)
    (h0 : v0 < 256) (h1 : v1 < 256) :
    (on_cccd_write [v0, v1] s).tx_notify_enabled = decide (v0 = 1 ∧ v1 = 0) ∧
    (on_cccd_write [v0, v1] s).device_connected = s.device_connected ∧
    (∀ (bs : List Nat), bs.length ≠ 2 → on_cccd_write bs s = s) := by
  refine ⟨?_, rfl, ?_⟩
  · show decide ((v0 ||| (v1 <<< 8)) % 65536 = 0x0001) = decide (v0 = 1 ∧ v1 = 0)
    exact decide_eq_decide.mpr (byte_pair_eq_one h0 h1)
  · intro bs hbs
    rcases bs with _ | ⟨a, _ | ⟨b, _ | ⟨c, tl⟩⟩⟩
    · rfl
    · rfl
    · exact absurd rfl hbs
    · rfl

/-- Claim C9 witness: the enable value 01 00 turns notifications on. -/
theorem cccd_write_spec_witness :
    (on_cccd_write [1, 0] init_state).tx_notify_enabled =
      decide ((1 : Nat) = 1 ∧ (0 : Nat) = 0) :=
  (cccd_write_spec init_state 1 0 (by decide) (by decide)).1

/-- Claim C9 counterexample: with notifications currently enabled, a
1-byte CCCD write of 0x00 — a value other than the enable value — leaves
notifications enabled instead of forcing them off. -/
theorem cccd_short_write_cex :
    (on_cccd_write [0] conn_notify_state).tx_notify_enabled = true := by decide

/-- Claim C10: a one-byte frame 0x05 is processed exactly as frame
0x05 00: duties 230/130, both direction flags low, watchdog reset to the
full countdown, no error path taken and the usual fixed send attempted. -/
theorem undersized_manual_frame (s : ZoboState) (now : Nat) :
    process_command now [0x05] s = process_command now [0x05, 0] s ∧
    (process_command now [0x05] s).left_duty = 230 ∧
    (process_command now [0x05] s).right_duty = 130 ∧
    (process_command now [0x05] s).left_dir = false ∧
    (process_command now [0x05] s).right_dir = false ∧
    (process_command now [0x05] s).timer_active = true ∧
    (process_command now [0x05] s).inactivity_timer = 30 ∧
    (on_rx_write now [0x05] s).2 =
      (if s.device_connected ∧ s.tx_notify_enabled ∧ s.gatts_registered
       then ["6.25"] else []) := by
  refine ⟨rfl, rfl, rfl, rfl, rfl, rfl, rfl, rfl⟩

end Zobo
